import Mathlib

/-!
Verification of the telemetry aggregation and log-processing logic of the
ids-dashboard repository (pages SystemLogs.tsx, Overview.tsx, Analytics.tsx).

The TypeScript code is shallowly embedded: strings become `List Char`,
JS numbers used as timestamps become `Int`, measured quantities become `Rat`,
optional record fields become `Option`, and the asynchronous load functions
become pure state-transition functions taking the fetch outcomes
(`Except String` values) as arguments.
-/

set_option maxRecDepth 4096

/-- Severity values of the `LogEntry` interface in SystemLogs.tsx
(`severity?: 'low' | 'medium' | 'high' | 'critical'`). -/
inductive Severity where
  | critical
  | high
  | medium
  | low
deriving DecidableEq, Repr

/-- A log record, from the `LogEntry` interface in SystemLogs.tsx.
`timestamp` is the millisecond value `new Date(x).getTime()` denotes;
`type` is an arbitrary string field, optional on ingestion. -/
structure LogRecord where
  timestamp : Int
  source : List Char
  content : List Char
  severity : Option Severity
  type : Option (List Char)
deriving DecidableEq, Repr

/-- ASCII lowercasing of one character, as `String.prototype.toLowerCase`
acts on the ASCII strings this code base deals in. -/
def lowerChar (c : Char) : Char :=
  if 'A' ≤ c ∧ c ≤ 'Z' then Char.ofNat (c.toNat + 32) else c

/-- Lowercasing of a whole string (`s.toLowerCase()`). -/
def lowerStr (s : List Char) : List Char :=
  s.map lowerChar

/-- Decides whether `ndl` occurs at the start of the second argument,
the helper behind substring search. -/
def isPrefixList : List Char → List Char → Bool
  | [], _ => true
  | _ :: _, [] => false
  | a :: as, b :: bs => a == b && isPrefixList as bs

/-- Embeds `hay.includes(ndl)` of JS strings: `ndl` occurs as a contiguous
substring of `hay`. -/
def containsSub : List Char → List Char → Bool
  | [], ndl => ndl.isEmpty
  | c :: rest, ndl => isPrefixList ndl (c :: rest) || containsSub rest ndl

/-- Truthiness of an optional JS string: `undefined` and the empty string
are falsy, every other string is truthy.  Used to embed `!log.type` and
`log.type && e`. -/
def jsStrFalsy : Option (List Char) → Bool
  | none => true
  | some t => t.isEmpty

/-- Severity keyword rules of the `enhancedLogs` mapping in SystemLogs.tsx,
lines 62-73: first matching content keyword wins, lowercased content is
tested against the lowercase literals. -/
def classifySeverity (content : List Char) : Severity :=
  if containsSub (lowerStr content) ("critical".toList) then Severity.critical
  else if containsSub (lowerStr content) ("alert".toList)
       || containsSub (lowerStr content) ("warning".toList) then Severity.high
  else if containsSub (lowerStr content) ("notice".toList) then Severity.medium
  else Severity.low

/-- Type rules of the `enhancedLogs` mapping in SystemLogs.tsx, lines 75-86:
first matching source substring wins; the tests are case sensitive, exactly
as `log.source.includes(..)` is. -/
def classifyType (source : List Char) : List Char :=
  if containsSub source ("ids".toList) || containsSub source ("snort".toList) then
    "intrusion".toList
  else if containsSub source ("auth".toList) then "authentication".toList
  else if containsSub source ("fw".toList) || containsSub source ("firewall".toList) then
    "firewall".toList
  else "system".toList

/-- Severity half of the `enhancedLogs` mapping: `if (!log.severity) ...`.
Severity carries no falsy non-missing value, so the guard is exactly
`isNone`. -/
def enhanceSeverity (log : LogRecord) : LogRecord :=
  if log.severity.isNone then
    { log with severity := some (classifySeverity log.content) }
  else log

/-- Type half of the `enhancedLogs` mapping: `if (!log.type) ...`.  The
guard `!log.type` is JS truthiness, so a type equal to the empty string is
treated as absent. -/
def enhanceType (log : LogRecord) : LogRecord :=
  if jsStrFalsy log.type then
    { log with type := some (classifyType log.source) }
  else log

/-- The full per-record normalisation step of `enhancedLogs` in
SystemLogs.tsx, lines 61-89. -/
def classify (log : LogRecord) : LogRecord :=
  enhanceType (enhanceSeverity log)

/-- The free-text predicate of `processedLogs` in SystemLogs.tsx,
lines 112-116: case-insensitive substring match against source, content,
or (when truthy) type. -/
def textMatch (filt : List Char) (log : LogRecord) : Bool :=
  containsSub (lowerStr log.source) (lowerStr filt) ||
  containsSub (lowerStr log.content) (lowerStr filt) ||
  (match log.type with
   | none => false
   | some t => !t.isEmpty && containsSub (lowerStr t) (lowerStr filt))

/-- First filter stage of `processedLogs`: `if (filter) result =
result.filter(..)`; an empty search term is falsy, so the stage is skipped. -/
def textFilterStep (filt : List Char) (logs : List LogRecord) : List LogRecord :=
  if filt.isEmpty then logs else logs.filter (fun log => textMatch filt log)

/-- Second filter stage of `processedLogs`: `if (selectedSeverity) result =
result.filter(log => log.severity === selectedSeverity)`; the dropdown maps
the empty selection to `null`, embedded as `none`. -/
def severityFilterStep (sev : Option Severity) (logs : List LogRecord) : List LogRecord :=
  match sev with
  | none => logs
  | some s => logs.filter (fun log => decide (log.severity = some s))

/-- Sort fields of SystemLogs.tsx (`sortField` state). -/
inductive SortField where
  | timestamp
  | source
  | severity
deriving DecidableEq, Repr

/-- Sort directions of SystemLogs.tsx (`sortDirection` state). -/
inductive SortDir where
  | asc
  | desc
deriving DecidableEq, Repr

/-- The object literal `severityOrder = { critical: 0, high: 1, medium: 2,
low: 3, undefined: 4 }` of SystemLogs.tsx line 133; looking up a missing
severity hits the string key `undefined`, so it yields 4. -/
def severityOrderMap : Option Severity → Nat
  | some Severity.critical => 0
  | some Severity.high => 1
  | some Severity.medium => 2
  | some Severity.low => 3
  | none => 4

/-- The sort key actually computed on lines 134-135:
`severityOrder[x] || 4`.  The JS `||` replaces every falsy value by 4, and
the number 0 is falsy, so the critical key 0 collapses to 4. -/
def severityKey (s : Option Severity) : Nat :=
  if severityOrderMap s = 0 then 4 else severityOrderMap s

/-- Three-way comparison standing in for `a.localeCompare(b)` on the source
field.  localeCompare is collation dependent; it is embedded as code point
lexicographic comparison, and no verified claim depends on the particular
collation, only on the comparator producing some consistent order. -/
def lexCompare : List Char → List Char → Int
  | [], [] => 0
  | [], _ :: _ => -1
  | _ :: _, [] => 1
  | a :: as, b :: bs =>
    if a.toNat < b.toNat then -1
    else if b.toNat < a.toNat then 1
    else lexCompare as bs

/-- The comparator body of `result.sort((a, b) => ..)` in SystemLogs.tsx,
lines 125-139, with the direction flip `asc ? comparison : -comparison`. -/
def cmpLogs (field : SortField) (dir : SortDir) (a b : LogRecord) : Int :=
  let comparison : Int :=
    match field with
    | SortField.timestamp => a.timestamp - b.timestamp
    | SortField.source => lexCompare a.source b.source
    | SortField.severity => (severityKey a.severity : Int) - (severityKey b.severity : Int)
  match dir with
  | SortDir.asc => comparison
  | SortDir.desc => -comparison

/-- The ordering relation induced by the JS comparator: `a` may come no
later than `b` exactly when the comparator is nonpositive.  A stable sort
with a consistent comparator is determined by this relation, which is what
`Array.prototype.sort` guarantees. -/
def jsComparatorLe (field : SortField) (dir : SortDir) (a b : LogRecord) : Prop :=
  cmpLogs field dir a b ≤ 0

instance (field : SortField) (dir : SortDir) : DecidableRel (jsComparatorLe field dir) :=
  fun a b => Int.decLe (cmpLogs field dir a b) 0

/-- Embeds `result.sort(comparator)`: ECMAScript requires a stable sort
consistent with the comparator, and for a consistent comparator every
stable sort agrees with stable insertion sort on `jsComparatorLe`. -/
def sortLogs (field : SortField) (dir : SortDir) (logs : List LogRecord) : List LogRecord :=
  List.insertionSort (jsComparatorLe field dir) logs

/-- The whole `processedLogs` memo of SystemLogs.tsx, lines 107-142:
copy, text filter, severity filter, sort. -/
def processedLogs (filt : List Char) (sev : Option Severity)
    (field : SortField) (dir : SortDir) (logs : List LogRecord) : List LogRecord :=
  sortLogs field dir (severityFilterStep sev (textFilterStep filt logs))

/-- The `AlertSummary` interface of SystemLogs.tsx; the JS record maps
become association lists. -/
structure AlertSummary where
  total_alerts : Nat
  by_type : List (List Char × Nat)
  by_severity : List (List Char × Nat)
deriving DecidableEq, Repr

/-- The `ThreatSummary` interface of SystemLogs.tsx. -/
structure ThreatSummary where
  total_alerts : Nat
  alerts_last_hour : Nat
  alerts_last_day : Nat
  severity_counts : List (List Char × Nat)
  top_threats : List (List Char × Nat)
deriving DecidableEq, Repr

/-- The slice of SystemLogs component state written by `loadData`:
`logs`, `alertSummary`, `threatSummary`, `loading`.  The two summaries
start as `null`, embedded as `none`. -/
structure SystemLogsState where
  logs : List LogRecord
  alertSummary : Option AlertSummary
  threatSummary : Option ThreatSummary
  loading : Bool
deriving DecidableEq, Repr

/-- Decides whether a fetch outcome is a failure. -/
def fetchFailed {α : Type} : Except (List Char) α → Bool
  | Except.error _ => true
  | Except.ok _ => false

/-- One refresh cycle of SystemLogs.tsx (`loadData`, lines 50-104) as a
state transition on the fetch outcomes.  The three fetches are joined by
`Promise.all`, which rejects as soon as any input rejects; the `catch`
block only logs to the console, so on any failure no state slot is
written.  `setLoading(true)` followed by the `finally setLoading(false)`
nets to `loading := false` on every path. -/
def loadDataSystemLogs (s : SystemLogsState)
    (logsRes : Except (List Char) (List LogRecord))
    (alertRes : Except (List Char) AlertSummary)
    (threatRes : Except (List Char) ThreatSummary) : SystemLogsState :=
  match logsRes, alertRes, threatRes with
  | Except.ok logsData, Except.ok alertData, Except.ok threatData =>
    { s with
      logs := logsData.map classify,
      alertSummary := some alertData,
      threatSummary := some threatData,
      loading := false }
  | _, _, _ => { s with loading := false }

/-- An entry of the untyped `alertsData` array of Analytics.tsx, holding
the two fields the page reads. -/
structure AlertRecord where
  type : Option (List Char)
  severity : Option (List Char)
deriving DecidableEq, Repr

/-- A row of the untyped `metrics` arrays: the fields the Overview and
Analytics pages read, each possibly absent. -/
structure MetricRow where
  timestamp : Option Int
  cpu_percent : Option Rat
  memory_percent : Option Rat
  load : Option Rat
  swap_percent : Option Rat
  disk_percent : Option Rat
  processes : Option Rat
  memory_total : Option Rat
  memory_used : Option Rat
deriving DecidableEq, Repr

/-- A row of the network data arrays (`NetworkSample`). -/
structure NetworkRow where
  timestamp : Int
  incoming_mbps : Rat
  outgoing_kbps : Rat
  total_incoming_gb : Rat
  total_outgoing_mb : Rat
  packet_loss_mb : Rat
deriving DecidableEq, Repr

/-- The `time_series` part of the `Analytics` interface of Analytics.tsx. -/
structure AnalyticsTimeSeries where
  timestamps : List (List Char)
  cpu : List Rat
  memory : List Rat
deriving DecidableEq, Repr

/-- The `network` part of the `Analytics` interface: protocol names with
values, and ports with counts. -/
structure AnalyticsNetwork where
  protocols : List (List Char × Rat)
  top_ports : List (Nat × Nat)
deriving DecidableEq, Repr

/-- The `Analytics` interface of Analytics.tsx. -/
structure AnalyticsBundle where
  time_series : AnalyticsTimeSeries
  network : AnalyticsNetwork
  alerts_count : Nat
  network_packets_count : Nat
  total_log_entries : Nat
deriving DecidableEq, Repr

/-- The slice of Analytics component state written by `loadData`. -/
structure AnalyticsState where
  analytics : Option AnalyticsBundle
  alertsData : List AlertRecord
  networkData : List NetworkRow
  metricsData : List MetricRow
  loading : Bool
  lastRefreshed : Nat
deriving DecidableEq, Repr

/-- One refresh cycle of Analytics.tsx (`loadData`, lines 50-76) as a
state transition on the four fetch outcomes; `now` is the clock reading
taken by `new Date()`.  Each fetch carries its own `then`/`catch` pair, so
each slot is updated exactly when its own fetch succeeded, independently of
the siblings; a failing fetch only logs to the console.  `setLoading(false)`
runs unconditionally first. -/
def loadDataAnalytics (s : AnalyticsState) (now : Nat)
    (analyticsRes : Except (List Char) AnalyticsBundle)
    (alertsRes : Except (List Char) (List AlertRecord))
    (networkRes : Except (List Char) (List NetworkRow))
    (metricsRes : Except (List Char) (List MetricRow)) : AnalyticsState :=
  let s0 := { s with loading := false }
  let s1 :=
    match analyticsRes with
    | Except.ok d => { s0 with analytics := some d, lastRefreshed := now }
    | Except.error _ => s0
  let s2 :=
    match alertsRes with
    | Except.ok d => { s1 with alertsData := d }
    | Except.error _ => s1
  let s3 :=
    match networkRes with
    | Except.ok d => { s2 with networkData := d }
    | Except.error _ => s2
  match metricsRes with
  | Except.ok d => { s3 with metricsData := d }
  | Except.error _ => s3

/-- Events of the refresh scheduler of one view context: the interval
timer firing, and an in-flight `loadData` cycle reaching its `finally`
block. -/
inductive SchedulerEvent where
  | tick
  | complete
deriving DecidableEq, Repr

/-- Effect of one timer tick on the number of in-flight refresh cycles.
In all three pages the `setInterval` callback is `loadData` itself and
`loadData` begins a new cycle unconditionally: no statement inspects
whether a previous cycle is still in flight, so a tick always starts one
more cycle. -/
def tickStep (inFlight : Nat) : Nat :=
  inFlight + 1

/-- Number of in-flight refresh cycles of one view context after a
sequence of scheduler events. -/
def schedulerRun : Nat → List SchedulerEvent → Nat
  | n, [] => n
  | n, SchedulerEvent.tick :: es => schedulerRun (tickStep n) es
  | n, SchedulerEvent.complete :: es => schedulerRun (n - 1) es

/-- The literal default object substituted for the latest metrics row in
Overview.tsx, lines 84-93, when no metrics have ever been fetched: every
reading is the present number 0. -/
def defaultLatestMetrics : MetricRow :=
  { timestamp := none
    cpu_percent := some 0
    memory_percent := some 0
    load := some 0
    swap_percent := some 0
    disk_percent := some 0
    processes := some 0
    memory_total := some 0
    memory_used := some 0 }

/-- The `latestMetrics` expression of Overview.tsx, line 84:
`metrics.length > 0 ? metrics[metrics.length - 1] : defaultObject`. -/
def latestMetrics (metrics : List MetricRow) : MetricRow :=
  match metrics.getLast? with
  | some m => m
  | none => defaultLatestMetrics

/-- JS `v || d` for an optional number: `undefined` and 0 are falsy and
replaced by the default. -/
def jsOrNum (v : Option Rat) (d : Rat) : Rat :=
  match v with
  | none => d
  | some x => if x = 0 then d else x

/-- Rounding to two decimals, `Math.round(x * 100) / 100`. -/
def round2 (q : Rat) : Rat :=
  ((round (q * 100) : Int) : Rat) / 100

/-- The `inboundTraffic` reading of Overview.tsx, lines 96-97: the last
network row rounded, or the literal 0 when no network data was ever
fetched. -/
def inboundTraffic (networkData : List NetworkRow) : Rat :=
  match networkData.getLast? with
  | some d => round2 d.incoming_mbps
  | none => 0

/-- The swap gauge value of Overview.tsx, lines 341 and 360:
`latestMetrics.swap_percent || 2.68`. -/
def swapGaugeValue (m : MetricRow) : Rat :=
  jsOrNum m.swap_percent (268 / 100)

/-- The process count display of Overview.tsx, line 393:
`latestMetrics.processes || 16`. -/
def processesDisplay (m : MetricRow) : Rat :=
  jsOrNum m.processes 16

/-- Concrete record with severity critical, used to exercise the severity
sort. -/
def recCritical : LogRecord :=
  { timestamp := 0, source := "a".toList, content := [],
    severity := some Severity.critical, type := none }

/-- Concrete record with severity high. -/
def recHigh : LogRecord :=
  { timestamp := 0, source := "b".toList, content := [],
    severity := some Severity.high, type := none }

/-- Concrete record with no severity. -/
def recNoSev : LogRecord :=
  { timestamp := 0, source := "c".toList, content := [],
    severity := none, type := none }

/-- First record of the filter pipeline example of the spec:
severity critical, source idsA. -/
def exLog1 : LogRecord :=
  { timestamp := 0, source := "idsA".toList, content := [],
    severity := some Severity.critical, type := none }

/-- Second record of the filter pipeline example: severity low,
source auth1. -/
def exLog2 : LogRecord :=
  { timestamp := 0, source := "auth1".toList, content := [],
    severity := some Severity.low, type := none }

/-- Record whose type field is set to the empty string. -/
def exEmptyType : LogRecord :=
  { timestamp := 0, source := "db".toList, content := "x".toList,
    severity := some Severity.low, type := some [] }

/-- Unclassified record whose content carries an upper-case warning
keyword. -/
def warningRecord : LogRecord :=
  { timestamp := 0, source := "srv".toList,
    content := "Disk WARNING low space".toList,
    severity := none, type := none }

/-- Unclassified record originating from a snort sensor. -/
def snortRecord : LogRecord :=
  { timestamp := 0, source := "snort01".toList, content := "ok".toList,
    severity := none, type := none }

/-- SystemLogs state before any successful fetch: both summaries null. -/
def exSystemLogsState : SystemLogsState :=
  { logs := [], alertSummary := none, threatSummary := none, loading := true }

/-- A concrete alert summary payload. -/
def exAlertSummary : AlertSummary :=
  { total_alerts := 3, by_type := [], by_severity := [] }

/-- A concrete threat summary payload. -/
def exThreatSummary : ThreatSummary :=
  { total_alerts := 3, alerts_last_hour := 1, alerts_last_day := 2,
    severity_counts := [], top_threats := [] }

/-- A metrics row every one of whose readings was measured as zero. -/
def zeroMetricRow : MetricRow :=
  { timestamp := some 0, cpu_percent := some 0, memory_percent := some 0,
    load := some 0, swap_percent := some 0, disk_percent := some 0,
    processes := some 0, memory_total := some 0, memory_used := some 0 }

/-- A network row whose measured traffic is zero. -/
def zeroNetworkRow : NetworkRow :=
  { timestamp := 0, incoming_mbps := 0, outgoing_kbps := 0,
    total_incoming_gb := 0, total_outgoing_mb := 0, packet_loss_mb := 0 }

/-!  Helper lemmas shared by the claim theorems. -/

theorem enhanceSeverity_type (log : LogRecord) : (enhanceSeverity log).type = log.type := by
  unfold enhanceSeverity
  split <;> rfl

theorem enhanceSeverity_source (log : LogRecord) :
    (enhanceSeverity log).source = log.source := by
  unfold enhanceSeverity
  split <;> rfl

theorem enhanceType_severity (log : LogRecord) :
    (enhanceType log).severity = log.severity := by
  unfold enhanceType
  split <;> rfl

theorem classify_severity_eq (r : LogRecord) :
    (classify r).severity =
      if r.severity.isNone then some (classifySeverity r.content) else r.severity := by
  unfold classify
  rw [enhanceType_severity]
  unfold enhanceSeverity
  split <;> simp_all

theorem classify_type_eq (r : LogRecord) :
    (classify r).type =
      if jsStrFalsy r.type then some (classifyType r.source) else r.type := by
  unfold classify enhanceType
  rw [enhanceSeverity_type, enhanceSeverity_source]
  split <;> simp_all [enhanceSeverity_type]

theorem classifyType_ne_nil (src : List Char) : classifyType src ≠ [] := by
  unfold classifyType
  split
  · decide
  split
  · decide
  split <;> decide

theorem jsStrFalsy_some_of_ne_nil {t : List Char} (h : t ≠ []) :
    jsStrFalsy (some t) = false := by
  cases t with
  | nil => exact absurd rfl h
  | cons c cs => rfl

theorem severityKey_le_four (s : Option Severity) : severityKey s ≤ 4 := by
  rcases s with _ | sv
  · decide
  · cases sv <;> decide

theorem severityKey_none : severityKey none = 4 := by decide

theorem severityKey_eq_four_iff (s : Option Severity) :
    severityKey s = 4 ↔ s = none ∨ s = some Severity.critical := by
  rcases s with _ | sv
  · decide
  · cases sv <;> decide

theorem jsComparatorLe_severity_asc (a b : LogRecord) :
    jsComparatorLe SortField.severity SortDir.asc a b ↔
      severityKey a.severity ≤ severityKey b.severity := by
  unfold jsComparatorLe cmpLogs
  dsimp only
  omega

theorem jsComparatorLe_severity_desc (a b : LogRecord) :
    jsComparatorLe SortField.severity SortDir.desc a b ↔
      severityKey b.severity ≤ severityKey a.severity := by
  unfold jsComparatorLe cmpLogs
  dsimp only
  omega

instance (dir : SortDir) : IsTotal LogRecord (jsComparatorLe SortField.severity dir) := by
  constructor
  intro a b
  cases dir <;>
    simp only [jsComparatorLe_severity_asc, jsComparatorLe_severity_desc] <;>
    omega

instance (dir : SortDir) : IsTrans LogRecord (jsComparatorLe SortField.severity dir) := by
  constructor
  intro a b c hab hbc
  cases dir <;>
    simp only [jsComparatorLe_severity_asc, jsComparatorLe_severity_desc] at * <;>
    omega

/-!  Claim theorems. -/

/-- C2: when sorting by severity the code does not realise the order
critical before high: `severityOrder` assigns critical the key 0, but the
expression `severityOrder[x] || 4` treats the falsy 0 as missing, so a
critical record receives key 4 and an ascending severity sort places a
high record before a critical one. -/
theorem severity_sort_misorders_critical :
    severityOrderMap (some Severity.critical) = 0 ∧
    severityKey (some Severity.critical) = 4 ∧
    sortLogs SortField.severity SortDir.asc [recCritical, recHigh] =
      [recHigh, recCritical] := by
  decide

/-- C3 counterexample: a record with no severity does not sort after all
known-severity records in both directions; under a descending severity
sort it comes first. -/
theorem severity_sort_unknown_first_descending :
    recNoSev.severity = none ∧
    recHigh.severity = some Severity.high ∧
    sortLogs SortField.severity SortDir.desc [recHigh, recNoSev] =
      [recNoSev, recHigh] := by
  decide

/-- C3 amended: records with no severity receive the maximal sort key 4,
shared with critical records because of the `|| 4` fallback.  Ascending,
no record that follows a no-severity record has a key below 4 (so a
no-severity record never precedes a high, medium or low record);
descending, no record that precedes a no-severity record has a key below 4
(so no-severity records sort before every high, medium or low record, not
after them). -/
theorem severity_sort_unknown_bucket (logs : List LogRecord) :
    (sortLogs SortField.severity SortDir.asc logs).Pairwise
      (fun a b => a.severity = none → severityKey b.severity = 4) ∧
    (sortLogs SortField.severity SortDir.desc logs).Pairwise
      (fun a b => b.severity = none → severityKey a.severity = 4) := by
  constructor
  · have hs := List.sorted_insertionSort
      (jsComparatorLe SortField.severity SortDir.asc) logs
    refine hs.imp ?_
    intro a b hab ha
    rw [jsComparatorLe_severity_asc] at hab
    have h4 := severityKey_le_four b.severity
    rw [ha, severityKey_none] at hab
    omega
  · have hs := List.sorted_insertionSort
      (jsComparatorLe SortField.severity SortDir.desc) logs
    refine hs.imp ?_
    intro a b hab hb
    rw [jsComparatorLe_severity_desc] at hab
    have h4 := severityKey_le_four a.severity
    rw [hb, severityKey_none] at hab
    omega

/-- C3 witness: the amended statement applied to a concrete input. -/
theorem severity_sort_unknown_bucket_witness :
    (sortLogs SortField.severity SortDir.desc [recHigh, recNoSev]).Pairwise
      (fun a b => b.severity = none → severityKey a.severity = 4) :=
  (severity_sort_unknown_bucket [recHigh, recNoSev]).2

/-- C4: for a record missing its severity, classification follows the
case-insensitive keyword precedence over the content, first match winning:
critical, then alert or warning, then notice, then low. -/
theorem classify_severity_keyword_precedence (r : LogRecord)
    (h : r.severity = none) :
    (containsSub (lowerStr r.content) ("critical".toList) = true →
       (classify r).severity = some Severity.critical) ∧
    (containsSub (lowerStr r.content) ("critical".toList) = false →
     (containsSub (lowerStr r.content) ("alert".toList) = true ∨
      containsSub (lowerStr r.content) ("warning".toList) = true) →
       (classify r).severity = some Severity.high) ∧
    (containsSub (lowerStr r.content) ("critical".toList) = false →
     containsSub (lowerStr r.content) ("alert".toList) = false →
     containsSub (lowerStr r.content) ("warning".toList) = false →
     containsSub (lowerStr r.content) ("notice".toList) = true →
       (classify r).severity = some Severity.medium) ∧
    (containsSub (lowerStr r.content) ("critical".toList) = false →
     containsSub (lowerStr r.content) ("alert".toList) = false →
     containsSub (lowerStr r.content) ("warning".toList) = false →
     containsSub (lowerStr r.content) ("notice".toList) = false →
       (classify r).severity = some Severity.low) := by
  have hc : (classify r).severity = some (classifySeverity r.content) := by
    rw [classify_severity_eq, h]
    rfl
  refine ⟨?_, ?_, ?_, ?_⟩ <;> intros <;> rw [hc] <;> unfold classifySeverity <;>
    simp_all

/-- C4 witness: an upper-case WARNING in the content yields severity high. -/
theorem classify_severity_keyword_precedence_witness :
    (classify warningRecord).severity = some Severity.high :=
  (classify_severity_keyword_precedence warningRecord rfl).2.1
    (by decide) (Or.inr (by decide))

/-- C5: for a record missing its type, classification follows the source
substring precedence, first match winning: ids or snort, then auth, then
fw or firewall, then system. -/
theorem classify_type_source_precedence (r : LogRecord)
    (h : r.type = none) :
    ((containsSub r.source ("ids".toList) = true ∨
      containsSub r.source ("snort".toList) = true) →
       (classify r).type = some ("intrusion".toList)) ∧
    (containsSub r.source ("ids".toList) = false →
     containsSub r.source ("snort".toList) = false →
     containsSub r.source ("auth".toList) = true →
       (classify r).type = some ("authentication".toList)) ∧
    (containsSub r.source ("ids".toList) = false →
     containsSub r.source ("snort".toList) = false →
     containsSub r.source ("auth".toList) = false →
     (containsSub r.source ("fw".toList) = true ∨
      containsSub r.source ("firewall".toList) = true) →
       (classify r).type = some ("firewall".toList)) ∧
    (containsSub r.source ("ids".toList) = false →
     containsSub r.source ("snort".toList) = false →
     containsSub r.source ("auth".toList) = false →
     containsSub r.source ("fw".toList) = false →
     containsSub r.source ("firewall".toList) = false →
       (classify r).type = some ("system".toList)) := by
  have hc : (classify r).type = some (classifyType r.source) := by
    rw [classify_type_eq, h]
    rfl
  refine ⟨?_, ?_, ?_, ?_⟩ <;> intros <;> rw [hc] <;> unfold classifyType <;>
    simp_all

/-- C5 witness: a snort source yields type intrusion. -/
theorem classify_type_source_precedence_witness :
    (classify snortRecord).type = some ("intrusion".toList) :=
  (classify_type_source_precedence snortRecord rfl).1 (Or.inr (by decide))

/-- C6 counterexample: a record whose type field is set to the empty
string is not left unchanged; the guard `!log.type` treats the empty
string as absent and classify overwrites it. -/
theorem classify_overwrites_empty_type :
    exEmptyType.type = some [] ∧
    (classify exEmptyType).type ≠ exEmptyType.type := by
  decide

/-- C6 amended: classify is idempotent, an already-set severity is left
unchanged, and an already-set non-empty type is left unchanged; a type set
to the empty string is treated as absent by the JS truthiness guard and is
reclassified. -/
theorem classify_idempotent_and_noop (r : LogRecord) :
    classify (classify r) = classify r ∧
    (∀ s, r.severity = some s → (classify r).severity = some s) ∧
    (∀ t, r.type = some t → t ≠ [] → (classify r).type = some t) := by
  refine ⟨?_, ?_, ?_⟩
  · have h1 : (classify r).severity.isNone = false := by
      rw [classify_severity_eq]
      cases hs : r.severity <;> simp [hs]
    have h2 : jsStrFalsy (classify r).type = false := by
      rw [classify_type_eq]
      split
      · exact jsStrFalsy_some_of_ne_nil (classifyType_ne_nil r.source)
      · simp_all
    show enhanceType (enhanceSeverity (classify r)) = classify r
    have he : enhanceSeverity (classify r) = classify r := by
      unfold enhanceSeverity
      rw [h1]
      rfl
    rw [he]
    unfold enhanceType
    rw [h2]
    rfl
  · intro s hs
    rw [classify_severity_eq, hs]
    rfl
  · intro t ht htne
    rw [classify_type_eq, ht, jsStrFalsy_some_of_ne_nil htne]
    rfl

/-- C6 witness: the amended statement applied to a concrete record with
severity critical and a non-empty type. -/
theorem classify_idempotent_and_noop_witness :
    classify (classify exLog1) = classify exLog1 ∧
    (classify exLog1).severity = some Severity.critical :=
  ⟨(classify_idempotent_and_noop exLog1).1,
   (classify_idempotent_and_noop exLog1).2.1 Severity.critical rfl⟩

/-- C7: the filter pipeline is the conjunction of the active filters: a
record is in the filtered output exactly when it is in the input, it
passes the free-text match unless the search term is empty, and it has the
selected severity when one is selected; on the two-record example, text
ids keeps exactly the first record and severity low keeps exactly the
second. -/
theorem filter_pipeline_conjunction :
    (∀ (logs : List LogRecord) (filt : List Char) (sev : Option Severity)
        (r : LogRecord),
      r ∈ severityFilterStep sev (textFilterStep filt logs) ↔
        r ∈ logs ∧ (filt.isEmpty = true ∨ textMatch filt r = true) ∧
          (∀ s, sev = some s → r.severity = some s)) ∧
    severityFilterStep none (textFilterStep ("ids".toList) [exLog1, exLog2]) =
      [exLog1] ∧
    severityFilterStep (some Severity.low)
      (textFilterStep [] [exLog1, exLog2]) = [exLog2] := by
  refine ⟨?_, by decide, by decide⟩
  intro logs filt sev r
  cases sev <;> cases hf : filt.isEmpty <;>
    simp [severityFilterStep, textFilterStep, hf, List.mem_filter]
  all_goals tauto

/-- C7 witness: the characterisation applied to the first example record. -/
theorem filter_pipeline_conjunction_witness :
    exLog1 ∈ severityFilterStep none
      (textFilterStep ("ids".toList) [exLog1, exLog2]) :=
  (filter_pipeline_conjunction.1 [exLog1, exLog2] ("ids".toList) none
      exLog1).mpr
    ⟨by decide, Or.inr (by decide), fun s hs => by cases hs⟩

/-- C1 counterexample: in the SystemLogs refresh cycle a failing logs
fetch discards the successful sibling results; the alert and threat
summaries stay unpopulated instead of being updated with the fetched
payloads. -/
theorem promiseAll_discards_successful_sibling :
    (loadDataSystemLogs exSystemLogsState (Except.error ("timeout".toList))
        (Except.ok exAlertSummary) (Except.ok exThreatSummary)).alertSummary
      = none ∧
    (loadDataSystemLogs exSystemLogsState (Except.error ("timeout".toList))
        (Except.ok exAlertSummary) (Except.ok exThreatSummary)).threatSummary
      = none := by
  decide

/-- C1 amended: the SystemLogs and Overview cycles join their fetches with
Promise.all, so a cycle with any failing source leaves every slot
unchanged, discarding successful sibling results and recording no error;
slots are updated only when every fetch succeeds.  The Analytics cycle
updates each slot independently: a slot holds its fetched payload exactly
when its own fetch succeeded, and keeps its previous value when its own
fetch failed, regardless of the siblings. -/
theorem loadData_merge_policy :
    (∀ (s : SystemLogsState) lr ar tr,
      (fetchFailed lr || fetchFailed ar || fetchFailed tr) = true →
      loadDataSystemLogs s lr ar tr = { s with loading := false }) ∧
    (∀ (s : SystemLogsState) la ab th,
      loadDataSystemLogs s (Except.ok la) (Except.ok ab) (Except.ok th) =
        { s with logs := la.map classify, alertSummary := some ab,
                 threatSummary := some th, loading := false }) ∧
    (∀ (s : AnalyticsState) (now : Nat) r1 r2 r3 r4,
      ((loadDataAnalytics s now r1 r2 r3 r4).analytics =
        match r1 with
        | Except.ok d => some d
        | Except.error _ => s.analytics) ∧
      ((loadDataAnalytics s now r1 r2 r3 r4).alertsData =
        match r2 with
        | Except.ok d => d
        | Except.error _ => s.alertsData) ∧
      ((loadDataAnalytics s now r1 r2 r3 r4).networkData =
        match r3 with
        | Except.ok d => d
        | Except.error _ => s.networkData) ∧
      ((loadDataAnalytics s now r1 r2 r3 r4).metricsData =
        match r4 with
        | Except.ok d => d
        | Except.error _ => s.metricsData)) := by
  refine ⟨?_, ?_, ?_⟩
  · intro s lr ar tr hfail
    cases lr <;> cases ar <;> cases tr <;> first
      | rfl
      | simp [fetchFailed] at hfail
  · intro s la ab th
    rfl
  · intro s now r1 r2 r3 r4
    cases r1 <;> cases r2 <;> cases r3 <;> cases r4 <;>
      exact ⟨rfl, rfl, rfl, rfl⟩

/-- C1 witness: the amended merge policy applied to a concrete failing
cycle. -/
theorem loadData_merge_policy_witness :
    loadDataSystemLogs exSystemLogsState (Except.error ("x".toList))
        (Except.ok exAlertSummary) (Except.ok exThreatSummary) =
      { exSystemLogsState with loading := false } :=
  loadData_merge_policy.1 exSystemLogsState _ _ _ (by decide)

/-- C8 counterexample: two timer ticks with no completion in between leave
two refresh cycles in flight for the same context; the second tick is not
skipped. -/
theorem scheduler_overlapping_cycles :
    ¬ schedulerRun 0 [SchedulerEvent.tick, SchedulerEvent.tick] ≤ 1 := by
  decide

/-- C8 amended: the interval callback is loadData itself and no code
inspects whether a previous cycle is still in flight, so every timer tick
starts one more refresh cycle regardless of how many are already running;
overlapping cycles for the same context are possible whenever a cycle
outlasts the interval. -/
theorem scheduler_tick_never_skipped (n : Nat) (es : List SchedulerEvent) :
    schedulerRun n (es ++ [SchedulerEvent.tick]) = schedulerRun n es + 1 := by
  induction es generalizing n with
  | nil => rfl
  | cons e es ih =>
    cases e <;> simp [schedulerRun, tickStep, ih]

/-- C9 counterexample: the never-fetched metrics state is the literal
zero-valued default record, so the CPU reading of a source that never
succeeded equals the CPU reading of a batch whose measured CPU is zero,
and likewise for the inbound traffic reading; consumers cannot tell the
two apart. -/
theorem overview_default_masks_unpopulated :
    latestMetrics [] = defaultLatestMetrics ∧
    (latestMetrics []).cpu_percent = (latestMetrics [zeroMetricRow]).cpu_percent ∧
    inboundTraffic [] = inboundTraffic [zeroNetworkRow] := by
  refine ⟨rfl, rfl, ?_⟩
  simp [inboundTraffic, round2, zeroNetworkRow]

/-- C9 amended: a metrics source that has never succeeded is rendered
through a literal default record whose readings are the present number 0,
indistinguishable from measured zeros; the swap gauge and the process
count additionally replace a missing or measured-zero value with the
literal defaults 2.68 and 16. -/
theorem overview_unpopulated_substitution :
    latestMetrics [] = defaultLatestMetrics ∧
    (∀ m : MetricRow, m.cpu_percent = some 0 →
       (latestMetrics [m]).cpu_percent = (latestMetrics []).cpu_percent) ∧
    swapGaugeValue (latestMetrics []) = 268 / 100 ∧
    (∀ m : MetricRow, m.swap_percent = some 0 →
       swapGaugeValue m = 268 / 100) ∧
    processesDisplay (latestMetrics []) = 16 ∧
    inboundTraffic [] = 0 := by
  refine ⟨rfl, ?_, ?_, ?_, ?_, rfl⟩
  · intro m hm
    simp [latestMetrics, hm, defaultLatestMetrics]
  · simp [latestMetrics, defaultLatestMetrics, swapGaugeValue, jsOrNum]
  · intro m hm
    simp [swapGaugeValue, hm, jsOrNum]
  · simp [latestMetrics, defaultLatestMetrics, processesDisplay, jsOrNum]

/-- C9 witness: the amended substitution applied to a concrete batch whose
swap usage was measured as zero. -/
theorem overview_unpopulated_substitution_witness :
    swapGaugeValue zeroMetricRow = 268 / 100 :=
  overview_unpopulated_substitution.2.2.2.1 zeroMetricRow rfl

/-- C10: for every filter and sort configuration the produced view is a
permutation of a sublist of the input: every record of the view occurs in
the input, no record occurs more often than in the input, and the view is
no longer than the input. -/
theorem processedLogs_subset_permutation (filt : List Char)
    (sev : Option Severity) (field : SortField) (dir : SortDir)
    (logs : List LogRecord) :
    (∃ kept, kept.Sublist logs ∧
       (processedLogs filt sev field dir logs).Perm kept) ∧
    (∀ r, r ∈ processedLogs filt sev field dir logs → r ∈ logs) ∧
    (processedLogs filt sev field dir logs).length ≤ logs.length ∧
    (∀ r, (processedLogs filt sev field dir logs).count r ≤ logs.count r) := by
  have hsub1 : (textFilterStep filt logs).Sublist logs := by
    unfold textFilterStep
    split
    · exact List.Sublist.refl logs
    · exact List.filter_sublist logs
  have hsub2 : (severityFilterStep sev (textFilterStep filt logs)).Sublist
      (textFilterStep filt logs) := by
    unfold severityFilterStep
    cases sev
    · exact List.Sublist.refl _
    · exact List.filter_sublist _
  have hsub := hsub2.trans hsub1
  have hperm : (processedLogs filt sev field dir logs).Perm
      (severityFilterStep sev (textFilterStep filt logs)) :=
    List.perm_insertionSort _ _
  have hsp : (processedLogs filt sev field dir logs).Subperm logs :=
    ⟨severityFilterStep sev (textFilterStep filt logs), hperm.symm, hsub⟩
  refine ⟨⟨severityFilterStep sev (textFilterStep filt logs), hsub, hperm⟩,
    ?_, ?_, ?_⟩
  · intro r hr
    exact hsub.subset (hperm.subset hr)
  · calc (processedLogs filt sev field dir logs).length
        = (severityFilterStep sev (textFilterStep filt logs)).length :=
          hperm.length_eq
      _ ≤ logs.length := hsub.length_le
  · intro r
    exact hsp.count_le r
